import Mathlib

/-!
Verification development for the LifeSOS-to-MQTT translation bridge
(`lifesospy_mqtt/translator.py`).  The translator reacts to callbacks from
the LifeSOS panel driver by publishing MQTT messages, reacts to inbound
MQTT messages on a fixed set of subscribed topics by issuing driver calls,
and owns the per-device auto-reset timer lifecycle for momentary Trigger
devices.

The embedding below transcribes the translator module.  External
collaborators (the `lifesospy` panel driver enums and records, the asyncio
event loop, the MQTT client) are modelled through the narrow interface the
translator uses: enum members become inductive constructors, the event loop
becomes an explicit timer list with a monotone handle counter, and every
publish becomes an appended `Pub` record (topic, stringified payload,
retain flag).
-/

/-- Payload container for one MQTT publish issued by the translator.
The payload is the final string form produced by `_async_publish`
(`None` replaced by the empty string, everything else through `str`). -/
structure Pub where
  topic : String
  payload : String
  retain : Bool
deriving DecidableEq, Repr

/-- Modelled from the spec: the repository enum `OnOff` (its module is not
in the supplied sources).  Two members Off = 0 and On = 1; its string form
is the lowercased member name, so the on payload is "on" and the off
payload is "off". -/
inductive OnOff where
  | Off
  | On
deriving DecidableEq, Repr

/-- Modelled from the spec: numeric value of an `OnOff` member
(Off = 0, On = 1). -/
def OnOff.value : OnOff → Nat
  | .Off => 0
  | .On => 1

/-- Modelled from the spec: the repository enum `OpenClosed` (its module is
not in the supplied sources).  A closed sensor maps to the "closed"
payload and an open one to "open". -/
inductive OpenClosed where
  | Open
  | Closed
deriving DecidableEq, Repr

/-- LifeSOS base unit state enum (external driver library). -/
inductive BaseUnitState where
  | Disarm
  | Home
  | Away
  | Monitor
  | AwayExitDelay
  | AwayEntryDelay
deriving DecidableEq, Repr

/-- Printable member name of a base unit state. -/
def BaseUnitState.memberName : BaseUnitState → String
  | .Disarm => "Disarm"
  | .Home => "Home"
  | .Away => "Away"
  | .Monitor => "Monitor"
  | .AwayExitDelay => "AwayExitDelay"
  | .AwayEntryDelay => "AwayEntryDelay"

/-- LifeSOS operation mode enum (external driver library). -/
inductive OperationMode where
  | Disarm
  | Home
  | Away
  | Monitor
deriving DecidableEq, Repr

/-- Printable member name of an operation mode. -/
def OperationMode.memberName : OperationMode → String
  | .Disarm => "Disarm"
  | .Home => "Home"
  | .Away => "Away"
  | .Monitor => "Monitor"

/-- LifeSOS device event code enum (external driver library); the
translator only branches on the `Trigger` member. -/
inductive DeviceEventCode where
  | Button
  | Away
  | Disarm
  | Home
  | Heartbeat
  | Reading
  | BatteryLow
  | PowerOnReset
  | Open
  | Close
  | Tamper
  | Trigger
  | Panic
deriving DecidableEq, Repr

/-- Printable member name of a device event code. -/
def DeviceEventCode.memberName : DeviceEventCode → String
  | .Button => "Button"
  | .Away => "Away"
  | .Disarm => "Disarm"
  | .Home => "Home"
  | .Heartbeat => "Heartbeat"
  | .Reading => "Reading"
  | .BatteryLow => "BatteryLow"
  | .PowerOnReset => "PowerOnReset"
  | .Open => "Open"
  | .Close => "Close"
  | .Tamper => "Tamper"
  | .Trigger => "Trigger"
  | .Panic => "Panic"

/-- LifeSOS contact-id event qualifier enum (external driver library). -/
inductive EventQualifier where
  | Event
  | Restore
  | Repeat
deriving DecidableEq, Repr

/-- LifeSOS contact-id event category enum (external driver library). -/
inductive EventCategory where
  | Alarm
  | Supervisory
  | Trouble
  | OpenCloseAccess
  | BypassDisable
  | TestMisc
  | Automation
deriving DecidableEq, Repr

/-- LifeSOS device type enum (external driver library).  Contains every
member named in the discovery lookup table of the translator plus device
types, such as remote controllers and keypads, that the table omits. -/
inductive DeviceType where
  | FloodDetector
  | FloodDetector2
  | MedicalButton
  | AnalogSensor
  | AnalogSensor2
  | SmokeDetector
  | PressureSensor
  | PressureSensor2
  | CODetector
  | CO2Sensor
  | CO2Sensor2
  | GasDetector
  | DoorMagnet
  | VibrationSensor
  | PIRSensor
  | GlassBreakDetector
  | HumidSensor
  | HumidSensor2
  | TempSensor
  | TempSensor2
  | LightSensor
  | LightDetector
  | ACCurrentMeter
  | ACCurrentMeter2
  | ThreePhaseACMeter
  | RemoteController
  | KeyPad
deriving DecidableEq, Repr

/-- Printable member name of a device type. -/
def DeviceType.memberName : DeviceType → String
  | .FloodDetector => "FloodDetector"
  | .FloodDetector2 => "FloodDetector2"
  | .MedicalButton => "MedicalButton"
  | .AnalogSensor => "AnalogSensor"
  | .AnalogSensor2 => "AnalogSensor2"
  | .SmokeDetector => "SmokeDetector"
  | .PressureSensor => "PressureSensor"
  | .PressureSensor2 => "PressureSensor2"
  | .CODetector => "CODetector"
  | .CO2Sensor => "CO2Sensor"
  | .CO2Sensor2 => "CO2Sensor2"
  | .GasDetector => "GasDetector"
  | .DoorMagnet => "DoorMagnet"
  | .VibrationSensor => "VibrationSensor"
  | .PIRSensor => "PIRSensor"
  | .GlassBreakDetector => "GlassBreakDetector"
  | .HumidSensor => "HumidSensor"
  | .HumidSensor2 => "HumidSensor2"
  | .TempSensor => "TempSensor"
  | .TempSensor2 => "TempSensor2"
  | .LightSensor => "LightSensor"
  | .LightDetector => "LightDetector"
  | .ACCurrentMeter => "ACCurrentMeter"
  | .ACCurrentMeter2 => "ACCurrentMeter2"
  | .ThreePhaseACMeter => "ThreePhaseACMeter"
  | .RemoteController => "RemoteController"
  | .KeyPad => "KeyPad"

/-- LifeSOS switch number enum (external driver library). -/
inductive SwitchNumber where
  | SW1
  | SW2
  | SW3
  | SW4
  | SW5
  | SW6
  | SW7
  | SW8
deriving DecidableEq, Repr

/-- A dynamically typed Python value as it flows into the publish helpers
of the translator. -/
inductive PyVal where
  | pynone
  | str (s : String)
  | bool (b : Bool)
  | nat (n : Nat)
  | onOff (v : OnOff)
  | openClosed (v : OpenClosed)
  | eventCode (c : DeviceEventCode)
  | buState (s : BaseUnitState)
  | opMode (m : OperationMode)
  | category (code : Nat) (description : String)
deriving DecidableEq, Repr

/-- The payload string `_async_publish` sends for a value: `None` becomes
the empty string, every other value goes through Python `str`.  The
repository enums render as their lowercased names (modelled from the
spec), Python booleans as `True` and `False`, and the external driver
enums by member name. -/
def pyStr : PyVal → String
  | .pynone => ""
  | .str s => s
  | .bool b => if b then "True" else "False"
  | .nat n => toString n
  | .onOff .On => "on"
  | .onOff .Off => "off"
  | .openClosed .Open => "open"
  | .openClosed .Closed => "closed"
  | .eventCode c => c.memberName
  | .buState s => s.memberName
  | .opMode m => m.memberName
  | .category code desc => "Category(" ++ toString code ++ ", " ++ desc ++ ")"

/-- Python truthiness of an optional string (None and the empty string are
falsy). -/
def truthyStr : Option String → Bool
  | none => false
  | some s => !(s == "")

/-- Python truthiness of an optional number (None and zero are falsy). -/
def truthyNat : Option Nat → Bool
  | none => false
  | some n => !(n == 0)

/-- Python `dict.get`: the value stored under a key, if any. -/
def dictGet [BEq κ] (l : List (κ × α)) (k : κ) : Option α :=
  (l.find? (fun p => p.1 == k)).map (fun p => p.2)

/-- Python `dict[k] = v`: replace any binding of the key with the new
value. -/
def dictSet [BEq κ] (l : List (κ × α)) (k : κ) (v : α) : List (κ × α) :=
  (k, v) :: l.filter (fun p => !(p.1 == k))

/-- Removal of a key binding (the successful case of `dict.pop`). -/
def dictRemove [BEq κ] (l : List (κ × α)) (k : κ) : List (κ × α) :=
  l.filter (fun p => !(p.1 == k))

/-- Per-device translator configuration (`TranslatorDeviceConfig`): topic
prefix, optional discovery display name, optional auto-reset interval. -/
structure TranslatorDeviceConfig where
  topic : Option String
  ha_name : Option String
  auto_reset_interval : Option Nat
deriving DecidableEq, Repr

/-- Per-switch translator configuration (`TranslatorSwitchConfig`). -/
structure TranslatorSwitchConfig where
  topic : Option String
  ha_name : Option String
deriving DecidableEq, Repr

/-- The translator section of the configuration: base unit topic prefix,
device and switch tables, and the optional discovery prefix
(`ha_discovery_prefix` in the source; absence disables discovery). -/
structure TranslatorConfig where
  baseunit : String
  devices : List (Nat × TranslatorDeviceConfig)
  switches : List (SwitchNumber × TranslatorSwitchConfig)
  ha_discovery : Option String
deriving DecidableEq, Repr

/-- Modelled from the spec: the repository constant `PROJECT_NAME` from
the `const` module, which is not in the supplied sources; the project
identifier used as the unique-id prefix of discovery documents. -/
def PROJECT_NAME : String := "lifesospy_mqtt"

/-- Default interval, in seconds, to wait before resetting a Trigger
device state to off (`Translator.AUTO_RESET_INTERVAL`). -/
def AUTO_RESET_INTERVAL : Nat := 30

/-- Python `device_config.auto_reset_interval or Translator.AUTO_RESET_INTERVAL`:
the configured interval unless it is absent or zero (falsy), in which case
the default applies. -/
def orDefault (x : Option Nat) : Nat :=
  match x with
  | some n => if n == 0 then AUTO_RESET_INTERVAL else n
  | none => AUTO_RESET_INTERVAL

/-- Errors a handler can raise; the dispatch loop catches all of them. -/
inductive PyError where
  | attributeError
  | keyError
  | valueError
  | notImplementedError
deriving DecidableEq, Repr

/-- Warnings the translator logs. -/
inductive LogWarn where
  | cannotSetOperationMode (name : Option String)
  | cannotSetSwitch (sw : SwitchNumber) (name : Option String)
  | deviceTypeNotRepresentable (t : DeviceType)
deriving DecidableEq, Repr

/-- A LifeSOS contact-id event record as the translator reads it: event
qualifier, event category, and the optional numeric event code (the
external driver leaves the code absent when it cannot classify it; Python
treats an absent or zero code as falsy). -/
structure ContactID where
  event_qualifier : EventQualifier
  event_category : EventCategory
  event_code : Option Nat
deriving DecidableEq, Repr

/-- Rendering of `json.dumps(contact_id.as_dict())`, the full event
payload.  The external record serialises its three fields. -/
def contactIdJson (c : ContactID) : String :=
  "\x7b\"event_qualifier\": " ++
    (match c.event_qualifier with
     | .Event => "\"Event\""
     | .Restore => "\"Restore\""
     | .Repeat => "\"Repeat\"") ++
  ", \"event_category\": " ++
    (match c.event_category with
     | .Alarm => "\"Alarm\""
     | .Supervisory => "\"Supervisory\""
     | .Trouble => "\"Trouble\""
     | .OpenCloseAccess => "\"OpenCloseAccess\""
     | .BypassDisable => "\"BypassDisable\""
     | .TestMisc => "\"TestMisc\""
     | .Automation => "\"Automation\"") ++
  ", \"event_code\": " ++
    (match c.event_code with
     | none => "null"
     | some n => toString n) ++
  "\x7d"

/-- The view of a panel device the translator reads: device id, device
type, and whether the object is a `SpecialDevice` instance. -/
structure Device where
  device_id : Nat
  type : DeviceType
  isSpecial : Bool
deriving DecidableEq, Repr

/-- `_baseunit_event`: publish the full event record, not retained, to the
event topic; when the event code is truthy, also publish the bare code to
the event-code or restore-code topic according to the qualifier; and for
an alarm-category Event qualifier, publish the hard-coded "triggered"
state, retained, to the ha_state topic. -/
def baseunit_event (baseunit : String) (c : ContactID) : List Pub :=
  Pub.mk (baseunit ++ "/event") (contactIdJson c) false ::
  ((if truthyNat c.event_code then
      (if c.event_qualifier == .Event then
        [Pub.mk (baseunit ++ "/event_code") (pyStr (.nat (c.event_code.getD 0))) false]
      else if c.event_qualifier == .Restore then
        [Pub.mk (baseunit ++ "/restore_code") (pyStr (.nat (c.event_code.getD 0))) false]
      else [])
    else [])
  ++ (if c.event_qualifier == .Event && c.event_category == .Alarm then
        [Pub.mk (baseunit ++ "/ha_state") "triggered" true]
      else []))

/-- The ha_state payload synthesised for a base unit state value, when
any: the branch chain of `_publish_baseunit_property` compares the value
against base unit state members. -/
def haStatePayload : PyVal → Option String
  | .buState .Disarm => some "disarmed"
  | .buState .Monitor => some "disarmed"
  | .buState .Home => some "armed_home"
  | .buState .Away => some "armed_away"
  | .buState .AwayExitDelay => some "pending"
  | .buState .AwayEntryDelay => some "pending"
  | _ => none

/-- `_publish_baseunit_property`: the state property goes retained to the
base unit topic itself plus, for the mapped state values, the synthesised
ha_state topic; the five other supported properties go retained to a
sub-topic named after the property; everything else publishes nothing. -/
def publish_baseunit_property (baseunit : String) (name : String) (value : PyVal) : List Pub :=
  if name == "state" then
    Pub.mk baseunit (pyStr value) true ::
    (match haStatePayload value with
     | some s => [Pub.mk (baseunit ++ "/ha_state") s true]
     | none => [])
  else if name == "is_connected" || name == "rom_version" || name == "exit_delay"
      || name == "entry_delay" || name == "operation_mode" then
    [Pub.mk (baseunit ++ "/" ++ name) (pyStr value) true]
  else
    []

/-- Modelled from the spec: `OnOff.parse_value` of the repository enums
module (not in the supplied sources); maps the boolean to the matching
member by value and anything else to None. -/
def OnOff.parse_value : PyVal → PyVal
  | .bool true => .onOff .On
  | .bool false => .onOff .Off
  | _ => .pynone

/-- Modelled from the spec: `OpenClosed.parse_value` of the repository
enums module (not in the supplied sources); a true is-closed flag maps to
Closed and a false one to Open, anything else to None. -/
def OpenClosed.parse_value : PyVal → PyVal
  | .bool true => .openClosed .Closed
  | .bool false => .openClosed .Open
  | _ => .pynone

/-- One publish per defined flag of a flag enum: the sub-topic is named
after the attribute and the flag, the payload is the Python boolean saying
whether that bit of the value is set, retained. -/
def flagPubs (topic_parent : String) (name : String)
    (flags : List (String × Nat)) (v : Nat) : List Pub :=
  flags.map (fun f =>
    Pub.mk (topic_parent ++ "/" ++ name ++ "/" ++ f.1)
      (pyStr (.bool (v &&& f.2 != 0))) true)

/-- Members of the LifeSOS `DCFlags` device characteristics flag enum
(external driver library), in iteration order. -/
def DCFlagsMembers : List (String × Nat) :=
  [("Repeater", 128), ("BaseUnit", 64), ("TwoWay", 32), ("Supervisory", 16),
   ("RFVoice", 8), ("Reserved_b2", 4), ("Reserved_b1", 2), ("Reserved_b0", 1)]

/-- Members of the LifeSOS `ESFlags` enable status flag enum (external
driver library), in iteration order. -/
def ESFlagsMembers : List (String × Nat) :=
  [("Bypass", 32768), ("Delay", 16384), ("Hour24", 8192), ("HomeGuard", 4096),
   ("WarningBeepDelay", 2048), ("AlarmSiren", 1024), ("Bell", 512), ("Latchkey", 256),
   ("Inactivity", 128), ("HomeAuto", 64), ("Supervised", 32), ("RFVoice", 16),
   ("HomeBridge", 8), ("Reserved_b2", 4), ("Reserved_b1", 2), ("Reserved_b0", 1)]

/-- Members of the LifeSOS `SwitchFlags` switch assignment flag enum
(external driver library), in iteration order. -/
def SwitchFlagsMembers : List (String × Nat) :=
  [("SW1", 128), ("SW2", 64), ("SW3", 32), ("SW4", 16),
   ("SW5", 8), ("SW6", 4), ("SW7", 2), ("SW8", 1)]

/-- Members of the LifeSOS `SSFlags` special sensor status flag enum
(external driver library), in iteration order. -/
def SSFlagsMembers : List (String × Nat) :=
  [("ControlAlarm", 128), ("HighLowOperation", 64), ("HighTriggered", 32),
   ("LowTriggered", 16), ("HighState", 8), ("LowState", 4),
   ("Reserved_b1", 2), ("Reserved_b0", 1)]

/-- `_publish_device_property`: the branch chain translating one changed
device attribute into its publish list.  A regular device is-closed flag
becomes open/closed on a door magnet and the fixed off payload on every
other type; a special device current reading goes to the device topic; the
category record yields its code and description sub-topics; the four flag
attributes decompose one sub-topic per defined enum flag; the fixed scalar
allow-list goes to a property sub-topic; anything else publishes
nothing.  A non-integer value on a flag attribute would fault in the
source and yields nothing here. -/
def publish_device_property (topic_parent : String) (device : Device)
    (name : String) (value : PyVal) : List Pub :=
  if !device.isSpecial && name == "is_closed" then
    (if device.type == .DoorMagnet then
      [Pub.mk topic_parent (pyStr (OpenClosed.parse_value value)) true]
    else
      [Pub.mk topic_parent (pyStr (.onOff .Off)) true])
  else if device.isSpecial && name == "current_reading" then
    [Pub.mk topic_parent (pyStr value) true]
  else if name == "category" then
    match value with
    | .category code desc =>
      [Pub.mk (topic_parent ++ "/" ++ name ++ "/code") (pyStr (.nat code)) true,
       Pub.mk (topic_parent ++ "/" ++ name ++ "/description") desc true]
    | _ => []
  else if name == "characteristics" then
    match value with
    | .nat v => flagPubs topic_parent name DCFlagsMembers v
    | _ => []
  else if name == "enable_status" then
    match value with
    | .nat v => flagPubs topic_parent name ESFlagsMembers v
    | _ => []
  else if name == "switches" then
    match value with
    | .nat v => flagPubs topic_parent name SwitchFlagsMembers v
    | _ => []
  else if name == "special_status" then
    match value with
    | .nat v => flagPubs topic_parent name SSFlagsMembers v
    | _ => []
  else if name == "device_id" || name == "zone" || name == "type"
      || name == "rssi_db" || name == "rssi_bars"
      || name == "high_limit" || name == "low_limit"
      || name == "control_limit_fields_exist"
      || name == "control_high_limit" || name == "control_low_limit" then
    [Pub.mk (topic_parent ++ "/" ++ name) (pyStr value) true]
  else
    []

/-- A JSON value appearing in a discovery document (all document fields
are strings or null). -/
inductive JVal where
  | jstr (s : String)
  | jnull
deriving DecidableEq, Repr

/-- Rendering of one JSON value. -/
def jsonVal : JVal → String
  | .jstr s => "\"" ++ s ++ "\""
  | .jnull => "null"

/-- Rendering of `json.dumps` on an ordered string-keyed object. -/
def jsonDump (l : List (String × JVal)) : String :=
  "\x7b" ++ String.intercalate ", "
    (l.map (fun p => "\"" ++ p.1 ++ "\": " ++ jsonVal p.2)) ++ "\x7d"

/-- JSON value of an optional string field. -/
def jOpt : Option String → JVal
  | none => .jnull
  | some s => .jstr s

/-- Python `"{:06x}".format(n)`: lowercase hexadecimal, zero padded on the
left to at least six digits. -/
def hex6 (n : Nat) : String :=
  let ds := Nat.toDigits 16 n
  String.mk (List.replicate (6 - ds.length) '0' ++ ds)

/-- The discovery lookup of `_publish_ha_device_config`: for a mapped
device type, the Home Assistant platform and the extra document fields
(device class, payloads, unit of measurement) appended for that type, in
insertion order; an unmapped type has no entry. -/
def haDeviceEntry : DeviceType → Option (String × List (String × JVal))
  | .FloodDetector => some ("binary_sensor",
      [("device_class", .jstr "moisture"), ("payload_on", .jstr "on"), ("payload_off", .jstr "off")])
  | .FloodDetector2 => some ("binary_sensor",
      [("device_class", .jstr "moisture"), ("payload_on", .jstr "on"), ("payload_off", .jstr "off")])
  | .MedicalButton => some ("binary_sensor",
      [("device_class", .jstr "safety"), ("payload_on", .jstr "on"), ("payload_off", .jstr "off")])
  | .AnalogSensor => some ("binary_sensor",
      [("payload_on", .jstr "on"), ("payload_off", .jstr "off")])
  | .AnalogSensor2 => some ("binary_sensor",
      [("payload_on", .jstr "on"), ("payload_off", .jstr "off")])
  | .SmokeDetector => some ("binary_sensor",
      [("device_class", .jstr "smoke"), ("payload_on", .jstr "on"), ("payload_off", .jstr "off")])
  | .PressureSensor => some ("binary_sensor",
      [("device_class", .jstr "motion"), ("payload_on", .jstr "on"), ("payload_off", .jstr "off")])
  | .PressureSensor2 => some ("binary_sensor",
      [("device_class", .jstr "motion"), ("payload_on", .jstr "on"), ("payload_off", .jstr "off")])
  | .CODetector => some ("binary_sensor",
      [("device_class", .jstr "gas"), ("payload_on", .jstr "on"), ("payload_off", .jstr "off")])
  | .CO2Sensor => some ("binary_sensor",
      [("device_class", .jstr "gas"), ("payload_on", .jstr "on"), ("payload_off", .jstr "off")])
  | .CO2Sensor2 => some ("binary_sensor",
      [("device_class", .jstr "gas"), ("payload_on", .jstr "on"), ("payload_off", .jstr "off")])
  | .GasDetector => some ("binary_sensor",
      [("device_class", .jstr "gas"), ("payload_on", .jstr "on"), ("payload_off", .jstr "off")])
  | .DoorMagnet => some ("binary_sensor",
      [("device_class", .jstr "door"), ("payload_on", .jstr "open"), ("payload_off", .jstr "closed")])
  | .VibrationSensor => some ("binary_sensor",
      [("device_class", .jstr "vibration"), ("payload_on", .jstr "on"), ("payload_off", .jstr "off")])
  | .PIRSensor => some ("binary_sensor",
      [("device_class", .jstr "motion"), ("payload_on", .jstr "on"), ("payload_off", .jstr "off")])
  | .GlassBreakDetector => some ("binary_sensor",
      [("device_class", .jstr "window"), ("payload_on", .jstr "on"), ("payload_off", .jstr "off")])
  | .HumidSensor => some ("sensor",
      [("device_class", .jstr "humidity"), ("unit_of_measurement", .jstr "%")])
  | .HumidSensor2 => some ("sensor",
      [("device_class", .jstr "humidity"), ("unit_of_measurement", .jstr "%")])
  | .TempSensor => some ("sensor",
      [("device_class", .jstr "temperature"), ("unit_of_measurement", .jstr "°C")])
  | .TempSensor2 => some ("sensor",
      [("device_class", .jstr "temperature"), ("unit_of_measurement", .jstr "°C")])
  | .LightSensor => some ("sensor",
      [("device_class", .jstr "illuminance"), ("unit_of_measurement", .jstr "Lux")])
  | .LightDetector => some ("sensor",
      [("device_class", .jstr "illuminance"), ("unit_of_measurement", .jstr "Lux")])
  | .ACCurrentMeter => some ("sensor", [("unit_of_measurement", .jstr "A")])
  | .ACCurrentMeter2 => some ("sensor", [("unit_of_measurement", .jstr "A")])
  | .ThreePhaseACMeter => some ("sensor", [("unit_of_measurement", .jstr "A")])
  | _ => none

/-- Python string formatting of an optional string (None renders as the
text None). -/
def formatOpt : Option String → String
  | none => "None"
  | some s => s

/-- The stable unique id of a device discovery document:
project name, underscore, device id as at least six hex digits. -/
def haUniqueId (device : Device) : String :=
  PROJECT_NAME ++ "_" ++ hex6 device.device_id

/-- `_publish_ha_device_config`: build the discovery document for a
device.  The base fields are always present; the platform and extra
fields come from the discovery lookup.  An unmapped device type logs one
warning and publishes nothing; a mapped one publishes exactly one
document, retained, under the discovery prefix, platform and unique id. -/
def publish_ha_device_config (cfg : TranslatorConfig) (device : Device)
    (device_config : TranslatorDeviceConfig) : List LogWarn × List Pub :=
  let message : List (String × JVal) :=
    [("name", jOpt device_config.ha_name),
     ("unique_id", .jstr (haUniqueId device)),
     ("state_topic", jOpt device_config.topic),
     ("availability_topic", .jstr (cfg.baseunit ++ "/is_connected")),
     ("payload_available", .jstr "True"),
     ("payload_not_available", .jstr "False")]
  match haDeviceEntry device.type with
  | none => ([.deviceTypeNotRepresentable device.type], [])
  | some pe =>
    ([], [Pub.mk
      (formatOpt (TranslatorConfig.ha_discovery cfg) ++ "/" ++ pe.1 ++ "/"
        ++ haUniqueId device ++ "/config")
      (jsonDump (message ++ pe.2)) true])

/-- Outcome of the device-added callback `_baseunit_device_added`:
whether the per-device callbacks were attached, the publishes issued
before returning or faulting, and the error escaping the handler, if
any. -/
structure DeviceAddedOutcome where
  attached : Bool
  pubs : List Pub
  warnings : List LogWarn
  error : Option PyError
deriving DecidableEq, Repr

/-- `_baseunit_device_added`: attach the device callbacks, publish the
initial property snapshot when a device config with a topic exists, then,
when the discovery prefix is truthy, read the ha_name attribute of the
device config — an attribute access that faults when no device config
exists for the id — and publish the discovery document when the name is
truthy. -/
def baseunit_device_added (cfg : TranslatorConfig) (device : Device)
    (props : List (String × PyVal)) : DeviceAddedOutcome :=
  let dcOpt := dictGet cfg.devices device.device_id
  let propPubs : List Pub :=
    match dcOpt with
    | some dc =>
      if truthyStr dc.topic then
        props.flatMap (fun p =>
          publish_device_property (dc.topic.getD "") device p.1 p.2)
      else []
    | none => []
  if truthyStr (TranslatorConfig.ha_discovery cfg) then
    match dcOpt with
    | none =>
      -- device_config.ha_name on None: AttributeError escapes the handler
      { attached := true, pubs := propPubs, warnings := [], error := some .attributeError }
    | some dc =>
      if truthyStr dc.ha_name then
        let wp := publish_ha_device_config cfg device dc
        { attached := true, pubs := propPubs ++ wp.2, warnings := wp.1, error := none }
      else
        { attached := true, pubs := propPubs, warnings := [], error := none }
  else
    { attached := true, pubs := propPubs, warnings := [], error := none }

/-- Typed calls the translator issues against the panel driver. -/
inductive DriverCall where
  | clearStatus
  | setDatetime (value : Option String)
  | setOperationMode (m : OperationMode)
  | setSwitchState (sw : SwitchNumber) (state : Bool)
deriving DecidableEq, Repr

/-- What one inbound message handler produced: logged warnings and driver
calls, in order. -/
structure HandlerResult where
  warnings : List LogWarn
  calls : List DriverCall
deriving DecidableEq, Repr

/-- Python `None if not message.data else message.data.decode()`: absent
or empty message data decodes to None, anything else to its text. -/
def decodeData : Option String → Option String
  | none => none
  | some s => if s == "" then none else some s

/-- Lowercasing of a string (the Python `str.lower` used in name
resolution), written over the character list so it evaluates by
reduction. -/
def strLower (s : String) : String :=
  String.mk (s.data.map (fun c => if c.isUpper then Char.ofNat (c.toNat + 32) else c))

/-- LifeSOS `OperationMode.parse_name` (external driver library): resolve
a name against the members of the operation mode enum, None when the name
is absent or matches no member. -/
def OperationMode.parse_name : Option String → Option OperationMode
  | none => none
  | some s =>
    (([OperationMode.Disarm, .Home, .Away, .Monitor].find?
        (fun m => strLower m.memberName == strLower s)))

/-- Modelled from the spec: `OnOff.parse_name` of the repository enums
module (not in the supplied sources); resolve a payload name against the
on and off members, None when unresolvable. -/
def OnOff.parse_name : Option String → Option OnOff
  | none => none
  | some s =>
    if strLower s == "on" then some .On
    else if strLower s == "off" then some .Off
    else none

/-- Stand-in for the external `dateutil.parser.parse`: parsing succeeds,
returning the parsed value represented by the accepted text, exactly when
the text contains a digit, and raises otherwise.  Only its success or
failure reaches the translator logic. -/
def parseDateTime (s : String) : Option String :=
  if s.data.any Char.isDigit then some s else none

/-- `_on_message_baseunit`: for the operation_mode argument, resolve the
decoded payload against the operation mode enum; an unresolvable name
logs a warning and issues no driver call, a resolved one issues exactly
one set-operation-mode call.  Any other bound argument raises
NotImplementedError. -/
def on_message_baseunit (arg : String) (data : Option String) :
    Except PyError HandlerResult :=
  if arg == "operation_mode" then
    let name := decodeData data
    match OperationMode.parse_name name with
    | none => .ok { warnings := [.cannotSetOperationMode name], calls := [] }
    | some m => .ok { warnings := [], calls := [.setOperationMode m] }
  else
    .error .notImplementedError

/-- `_on_message_clear_status`: one clear-status driver call. -/
def on_message_clear_status (_data : Option String) : Except PyError HandlerResult :=
  .ok { warnings := [], calls := [.clearStatus] }

/-- `_on_message_set_datetime`: an absent or empty payload requests the
remote time be set to now (a None value); other text is parsed as a
date-time and forwarded; text the parser rejects raises out of the
handler. -/
def on_message_set_datetime (data : Option String) : Except PyError HandlerResult :=
  match decodeData data with
  | none => .ok { warnings := [], calls := [.setDatetime none] }
  | some s =>
    match parseDateTime s with
    | none => .error .valueError
    | some dt => .ok { warnings := [], calls := [.setDatetime (some dt)] }

/-- `_on_message_switch`: resolve the decoded payload against the on/off
enum; an unresolvable name logs a warning and issues no driver call, a
resolved one issues exactly one switch-state call with the boolean of the
member value. -/
def on_message_switch (sw : SwitchNumber) (data : Option String) : HandlerResult :=
  let name := decodeData data
  match OnOff.parse_name name with
  | none => { warnings := [.cannotSetSwitch sw name], calls := [] }
  | some st => { warnings := [], calls := [.setSwitchState sw (OnOff.value st != 0)] }

/-- A handler reference bound into the subscription router. -/
inductive InboundHandler where
  | clearStatus
  | setDatetime
  | baseunitProp (arg : String)
  | switchSet (sw : SwitchNumber)
deriving DecidableEq, Repr

/-- The subscription list built in the constructor: the clear-status and
datetime-set topics, the operation-mode set topic, and one set topic per
configured switch with a truthy topic. -/
def subscribetopics (cfg : TranslatorConfig) : List (String × InboundHandler) :=
  [(cfg.baseunit ++ "/clear_status", .clearStatus),
   (cfg.baseunit ++ "/datetime/set", .setDatetime),
   (cfg.baseunit ++ "/operation_mode/set", .baseunitProp "operation_mode")]
  ++ cfg.switches.filterMap (fun p =>
      if truthyStr p.2.topic then
        some (p.2.topic.getD "" ++ "/set", InboundHandler.switchSet p.1)
      else none)

/-- Dispatch to the handler a router entry names. -/
def runHandler : InboundHandler → Option String → Except PyError HandlerResult
  | .clearStatus, data => on_message_clear_status data
  | .setDatetime, data => on_message_set_datetime data
  | .baseunitProp arg, data => on_message_baseunit arg data
  | .switchSet sw, data => .ok (on_message_switch sw data)

/-- Observable outcome of one iteration of the dispatch loop of
`async_loop` for a delivered message: whether the except branch logged an
error, the warnings and driver calls of the handler, and the shutdown
flag the loop checks next. -/
structure LoopIter where
  loggedError : Bool
  warnings : List LogWarn
  calls : List DriverCall
  shutdown : Bool
deriving DecidableEq, Repr

/-- One iteration of the dispatch loop on a delivered message: look the
topic up in the router and run the handler, all inside the try block; any
exception, from the lookup or the handler, is caught and logged and the
loop continues with the shutdown flag untouched. -/
def loop_step (cfg : TranslatorConfig) (shutdown : Bool)
    (topic : String) (data : Option String) : LoopIter :=
  match (subscribetopics cfg).find? (fun p => p.1 == topic) with
  | none => { loggedError := true, warnings := [], calls := [], shutdown := shutdown }
  | some p =>
    match runHandler p.2 data with
    | .error _ => { loggedError := true, warnings := [], calls := [], shutdown := shutdown }
    | .ok r => { loggedError := false, warnings := r.warnings, calls := r.calls, shutdown := shutdown }

/-- One scheduled auto-reset timer on the event loop: the handle returned
by call_later, the device id bound as callback argument, and the
absolute deadline. -/
structure TimerEntry where
  handle : Nat
  deviceId : Nat
  deadline : Nat
deriving DecidableEq, Repr

/-- The slice of the asyncio event loop the translator touches: the
current time, a fresh-handle counter, and the scheduled timers. -/
structure LoopState where
  now : Nat
  nextHandle : Nat
  timers : List TimerEntry
deriving DecidableEq, Repr

/-- `loop.call_later(delay, callback, device_id)`: schedule a fresh timer
at now plus delay and return its handle. -/
def callLater (ls : LoopState) (delay : Nat) (deviceId : Nat) : Nat × LoopState :=
  (ls.nextHandle,
   { now := ls.now,
     nextHandle := ls.nextHandle + 1,
     timers := ls.timers ++ [TimerEntry.mk ls.nextHandle deviceId (ls.now + delay)] })

/-- `handle.cancel()`: a cancelled timer never fires; it leaves the set of
scheduled timers. -/
def cancelHandle (ls : LoopState) (h : Nat) : LoopState :=
  { ls with timers := ls.timers.filter (fun t => !(t.handle == h)) }

/-- Translator state an event callback can touch: the event loop, the
auto-reset handle dictionary keyed by device id, and the publish trace
in order of issue. -/
structure TransState where
  loop : LoopState
  handles : List (Nat × Nat)
  pubs : List Pub
deriving DecidableEq, Repr

/-- Record one publish call. -/
def pubOne (st : TransState) (topic : String) (v : PyVal) (retain : Bool) : TransState :=
  { st with pubs := st.pubs ++ [Pub.mk topic (pyStr v) retain] }

/-- `_device_on_event`: with a device config holding a truthy topic,
publish the event code, not retained, to the event-code sub-topic; for a
Trigger event also publish on, retained, to the device topic, cancel any
stored auto-reset handle for the id, and arm a fresh timer over the
configured or default interval, storing its handle under the id. -/
def device_on_event (cfg : TranslatorConfig) (st : TransState)
    (deviceId : Nat) (event_code : DeviceEventCode) : TransState :=
  match dictGet cfg.devices deviceId with
  | none => st
  | some dc =>
    if truthyStr dc.topic then
      let topic := dc.topic.getD ""
      let st1 := pubOne st (topic ++ "/event_code") (.eventCode event_code) false
      if event_code == .Trigger then
        let st2 := pubOne st1 topic (OnOff.parse_value (.bool true)) true
        let st3 :=
          match dictGet st2.handles deviceId with
          | some h => { st2 with loop := cancelHandle st2.loop h }
          | none => st2
        let hl := callLater st3.loop (orDefault dc.auto_reset_interval) deviceId
        { st3 with loop := hl.2, handles := dictSet st3.handles deviceId hl.1 }
      else st1
    else st

/-- `_auto_reset`: the timer callback.  Publish off, retained, to the
device topic when a device config with a truthy topic exists, then pop
the handle entry; a missing entry raises KeyError. -/
def auto_reset (cfg : TranslatorConfig) (deviceId : Nat) (st : TransState) :
    Except PyError TransState :=
  let st1 :=
    match dictGet cfg.devices deviceId with
    | some dc =>
      if truthyStr dc.topic then
        pubOne st (dc.topic.getD "") (OnOff.parse_value (.bool false)) true
      else st
    | none => st
  if (dictGet st1.handles deviceId).isSome then
    .ok { st1 with handles := dictRemove st1.handles deviceId }
  else
    .error .keyError

/-- The event loop fires the scheduled timer with the given handle: the
timer leaves the schedule, time advances to its deadline, and its
callback `_auto_reset` runs on its bound device id. -/
def fireTimer (cfg : TranslatorConfig) (st : TransState) (h : Nat) :
    Except PyError TransState :=
  match st.loop.timers.find? (fun t => t.handle == h) with
  | none => .error .keyError
  | some t =>
    auto_reset cfg t.deviceId
      { st with loop :=
        { now := t.deadline,
          nextHandle := st.loop.nextHandle,
          timers := st.loop.timers.filter (fun x => !(x.handle == h)) } }

/-- Time passes on the loop with no timer firing. -/
def setNow (st : TransState) (t : Nat) : TransState :=
  { st with loop := { st.loop with now := t } }

/-- The live auto-reset timers armed for one device id. -/
def livesFor (st : TransState) (deviceId : Nat) : List TimerEntry :=
  st.loop.timers.filter (fun t => t.deviceId == deviceId)

/-- Well-formedness of reachable translator states: every scheduled timer
was issued a handle below the fresh counter and is the timer the handle
dictionary stores for its device id. -/
def WF (st : TransState) : Bool :=
  st.loop.timers.all (fun t =>
    decide (t.handle < st.loop.nextHandle)
    && (dictGet st.handles t.deviceId == some t.handle))

theorem list_all_imp {l : List α} {p : α → Bool} (h : l.all p = true) :
    ∀ a ∈ l, p a = true := by
  intro a ha
  exact (List.all_eq_true.mp h) a ha

theorem string_append_right_ne (s : String) {a b : String} (h : a ≠ b) :
    s ++ a ≠ s ++ b := by
  intro he
  apply h
  apply String.ext
  have hd : s.data ++ a.data = s.data ++ b.data := by
    have := congrArg String.data he
    simpa [String.data_append] using this
  exact List.append_cancel_left hd

theorem find?_filter_of_imp {l : List α} {q r : α → Bool}
    (h : ∀ a, q a = true → r a = true) :
    (l.filter r).find? q = l.find? q := by
  induction l with
  | nil => rfl
  | cons x xs ih =>
    by_cases hq : q x = true
    · rw [List.filter_cons, h x hq]
      simp [List.find?_cons_of_pos, hq]
    · have hq' : q x = false := by
        cases hqx : q x
        · rfl
        · exact absurd hqx hq
      rw [List.filter_cons]
      cases hr : r x
      · simp [List.find?_cons_of_neg, hq', ih]
      · simp [List.find?_cons_of_neg, hq', ih]

theorem dictGet_dictSet_self [BEq κ] [LawfulBEq κ] (l : List (κ × α)) (k : κ) (v : α) :
    dictGet (dictSet l k v) k = some v := by
  simp [dictGet, dictSet, List.find?_cons_of_pos]

theorem dictGet_dictSet_ne [BEq κ] [LawfulBEq κ] (l : List (κ × α)) (k k' : κ) (v : α)
    (h : k' ≠ k) :
    dictGet (dictSet l k v) k' = dictGet l k' := by
  have hk : (k == k') = false := by
    cases he : k == k'
    · rfl
    · exact absurd (eq_of_beq he).symm h
  rw [dictGet, dictSet, List.find?_cons_of_neg _ (by simpa using fun he => h (eq_of_beq he).symm)]
  rw [find?_filter_of_imp]
  · rfl
  · intro a ha
    simp only [beq_iff_eq] at ha
    simp [ha, h]

/-- C3: a base unit state change publishes the raw enum value retained to
the base unit topic and the synthesised ha_state retained with exactly
disarmed for Disarm or Monitor, armed_home for Home, armed_away for Away,
pending for AwayExitDelay or AwayEntryDelay; a state value outside the
mapped set yields no ha_state publish; and a property outside the
supported set yields no publication at all. -/
theorem C3_baseunit_property (b : String) :
    (∀ s : BaseUnitState,
      publish_baseunit_property b "state" (.buState s) =
        [Pub.mk b (pyStr (.buState s)) true,
         Pub.mk (b ++ "/ha_state")
           (match s with
            | .Disarm => "disarmed"
            | .Monitor => "disarmed"
            | .Home => "armed_home"
            | .Away => "armed_away"
            | .AwayExitDelay => "pending"
            | .AwayEntryDelay => "pending") true])
    ∧ (∀ v : PyVal, (∀ s : BaseUnitState, v ≠ .buState s) →
        publish_baseunit_property b "state" v = [Pub.mk b (pyStr v) true])
    ∧ (∀ name : String, ∀ v : PyVal,
        name ≠ "state" → name ≠ "is_connected" → name ≠ "rom_version" →
        name ≠ "exit_delay" → name ≠ "entry_delay" → name ≠ "operation_mode" →
        publish_baseunit_property b name v = []) := by
  refine ⟨?_, ?_, ?_⟩
  · intro s
    cases s <;> rfl
  · intro v h
    cases v with
    | buState s => exact absurd rfl (h s)
    | pynone => rfl
    | str s => rfl
    | bool x => rfl
    | nat n => rfl
    | onOff x => rfl
    | openClosed x => rfl
    | eventCode c => rfl
    | opMode m => rfl
    | category c d => rfl
  · intro name v h1 h2 h3 h4 h5 h6
    simp [publish_baseunit_property, h1, h2, h3, h4, h5, h6]

/-- C3 witness: the theorem evaluated at concrete inputs. -/
theorem C3_witness :
    publish_baseunit_property "base" "state" (.buState .Home) =
      [Pub.mk "base" (pyStr (.buState .Home)) true,
       Pub.mk ("base" ++ "/ha_state") "armed_home" true]
    ∧ publish_baseunit_property "base" "state" (.nat 3) = [Pub.mk "base" (pyStr (.nat 3)) true]
    ∧ publish_baseunit_property "base" "rssi_db" (.nat 3) = [] :=
  ⟨(C3_baseunit_property "base").1 .Home,
   (C3_baseunit_property "base").2.1 (.nat 3) (fun s => by simp),
   (C3_baseunit_property "base").2.2 "rssi_db" (.nat 3) (by decide) (by decide)
     (by decide) (by decide) (by decide) (by decide)⟩

/-- C4 counterexample: a base unit event record whose qualifier is Event
but whose event code is absent (the external driver supplies none when it
cannot classify the code, and the source guards on its truthiness)
publishes nothing to the event_code topic, contradicting the claim as
stated. -/
theorem C4_counterexample :
    (baseunit_event "base" (ContactID.mk .Event .Alarm none)).all
      (fun p => !(p.topic == "base/event_code")) = true := by decide

/-- C4 as amended: the full event record always goes, not retained, to
the event topic; when the event code is truthy, an Event qualifier
publishes the bare code, not retained, to the event_code topic and a
Restore qualifier to the restore_code topic; an Event qualifier with
Alarm category publishes triggered, retained, to the ha_state topic; and
with a falsy event code neither bare-code topic is published. -/
theorem C4_amended_thm (b : String) (c : ContactID) :
    (baseunit_event b c).head? = some (Pub.mk (b ++ "/event") (contactIdJson c) false)
    ∧ (truthyNat c.event_code = true → c.event_qualifier = .Event →
        Pub.mk (b ++ "/event_code") (pyStr (.nat (c.event_code.getD 0))) false
          ∈ baseunit_event b c)
    ∧ (truthyNat c.event_code = true → c.event_qualifier = .Restore →
        Pub.mk (b ++ "/restore_code") (pyStr (.nat (c.event_code.getD 0))) false
          ∈ baseunit_event b c)
    ∧ (c.event_qualifier = .Event → c.event_category = .Alarm →
        Pub.mk (b ++ "/ha_state") "triggered" true ∈ baseunit_event b c)
    ∧ (truthyNat c.event_code = false →
        ∀ p ∈ baseunit_event b c,
          p.topic ≠ b ++ "/event_code" ∧ p.topic ≠ b ++ "/restore_code") := by
  refine ⟨?_, ?_, ?_, ?_, ?_⟩
  · rfl
  · intro htr hq
    simp [baseunit_event, htr, hq]
  · intro htr hq
    simp [baseunit_event, htr, hq]
  · intro hq hc
    simp [baseunit_event, hq, hc]
  · intro htr p hp
    simp [baseunit_event, htr] at hp
    have h1 : p.topic = b ++ "/event" ∨ p.topic = b ++ "/ha_state" := by
      rcases hp with hp | hp
      · left; rw [hp]
      · rcases hp with ⟨_, hp⟩
        right; rw [hp]
    constructor
    · rcases h1 with h1 | h1 <;> rw [h1]
      · exact string_append_right_ne b (by decide)
      · exact string_append_right_ne b (by decide)
    · rcases h1 with h1 | h1 <;> rw [h1]
      · exact string_append_right_ne b (by decide)
      · exact string_append_right_ne b (by decide)

/-- C4 witness: the amended theorem evaluated at a concrete event
record. -/
theorem C4_witness :
    Pub.mk ("base" ++ "/event_code") (pyStr (.nat ((some 130 : Option Nat).getD 0))) false
      ∈ baseunit_event "base" (ContactID.mk .Event .Alarm (some 130))
    ∧ Pub.mk ("base" ++ "/ha_state") "triggered" true
      ∈ baseunit_event "base" (ContactID.mk .Event .Alarm (some 130)) :=
  ⟨(C4_amended_thm "base" (ContactID.mk .Event .Alarm (some 130))).2.1 (by decide) rfl,
   (C4_amended_thm "base" (ContactID.mk .Event .Alarm (some 130))).2.2.2.1 rfl rfl⟩

/-- C5: an is-closed change on a regular device publishes, retained at
the device topic, open or closed when the type is a door magnet, and the
fixed off payload for every other type, whatever the boolean value. -/
theorem C5_is_closed (tp : String) (dev : Device) (b : Bool)
    (hns : dev.isSpecial = false) :
    (dev.type = .DoorMagnet →
      publish_device_property tp dev "is_closed" (.bool b) =
        [Pub.mk tp (if b then "closed" else "open") true])
    ∧ (dev.type ≠ .DoorMagnet →
      publish_device_property tp dev "is_closed" (.bool b) = [Pub.mk tp "off" true]) := by
  constructor
  · intro ht
    cases b <;> simp [publish_device_property, hns, ht, OpenClosed.parse_value, pyStr]
  · intro ht
    simp [publish_device_property, hns, ht, pyStr]

/-- C5 witness: the theorem evaluated at a door magnet and at a pir
sensor. -/
theorem C5_witness :
    publish_device_property "d" (Device.mk 5 .DoorMagnet false) "is_closed" (.bool true) =
      [Pub.mk "d" (if true then "closed" else "open") true]
    ∧ publish_device_property "d" (Device.mk 5 .PIRSensor false) "is_closed" (.bool true) =
      [Pub.mk "d" "off" true] :=
  ⟨(C5_is_closed "d" (Device.mk 5 .DoorMagnet false) true rfl).1 rfl,
   (C5_is_closed "d" (Device.mk 5 .PIRSensor false) true rfl).2 (by decide)⟩

/-- C6: each of the four bitflag attributes decomposes into exactly one
retained boolean sub-topic per defined flag of the matching enum, named
after the attribute and the flag, whose payload says whether that bit of
the value is set; nothing is published for bits outside the enum; and a
value of five over the three-flag enum A equals one, B equals two, C
equals four yields exactly A true, B false, C true. -/
theorem C6_bitflags (tp : String) (dev : Device) (v : Nat) :
    publish_device_property tp dev "characteristics" (.nat v)
      = flagPubs tp "characteristics" DCFlagsMembers v
    ∧ publish_device_property tp dev "enable_status" (.nat v)
      = flagPubs tp "enable_status" ESFlagsMembers v
    ∧ publish_device_property tp dev "switches" (.nat v)
      = flagPubs tp "switches" SwitchFlagsMembers v
    ∧ publish_device_property tp dev "special_status" (.nat v)
      = flagPubs tp "special_status" SSFlagsMembers v
    ∧ (∀ (flags : List (String × Nat)) (name : String),
        (flagPubs tp name flags v).length = flags.length)
    ∧ (∀ (flags : List (String × Nat)) (name fn : String) (fv : Nat),
        (fn, fv) ∈ flags →
        Pub.mk (tp ++ "/" ++ name ++ "/" ++ fn)
          (pyStr (.bool (v &&& fv != 0))) true ∈ flagPubs tp name flags v)
    ∧ (∀ (flags : List (String × Nat)) (name : String),
        ∀ p ∈ flagPubs tp name flags v,
        ∃ fn fv, (fn, fv) ∈ flags ∧
          p = Pub.mk (tp ++ "/" ++ name ++ "/" ++ fn)
            (pyStr (.bool (v &&& fv != 0))) true)
    ∧ flagPubs "d" "attr" [("A", 1), ("B", 2), ("C", 4)] 5 =
        [Pub.mk "d/attr/A" "True" true,
         Pub.mk "d/attr/B" "False" true,
         Pub.mk "d/attr/C" "True" true] := by
  refine ⟨?_, ?_, ?_, ?_, ?_, ?_, ?_, ?_⟩
  · simp [publish_device_property]
  · simp [publish_device_property]
  · simp [publish_device_property]
  · simp [publish_device_property]
  · intro flags name
    simp [flagPubs]
  · intro flags name fn fv h
    exact List.mem_map_of_mem _ h
  · intro flags name p hp
    rcases List.mem_map.mp hp with ⟨f, hf, hfp⟩
    exact ⟨f.1, f.2, hf, hfp.symm⟩
  · decide

/-- C6 witness: the flag facts evaluated at a concrete flag enum and
value. -/
theorem C6_witness :
    Pub.mk ("d" ++ "/" ++ "attr" ++ "/" ++ "B") (pyStr (.bool (5 &&& 2 != 0))) true
      ∈ flagPubs "d" "attr" [("A", 1), ("B", 2), ("C", 4)] 5
    ∧ (flagPubs "d" "attr" [("A", 1), ("B", 2), ("C", 4)] 5).length
        = ([("A", 1), ("B", 2), ("C", 4)] : List (String × Nat)).length :=
  ⟨(C6_bitflags "d" (Device.mk 1 .PIRSensor false) 5).2.2.2.2.2.1
      [("A", 1), ("B", 2), ("C", 4)] "attr" "B" 2 (by decide),
   (C6_bitflags "d" (Device.mk 1 .PIRSensor false) 5).2.2.2.2.1
      [("A", 1), ("B", 2), ("C", 4)] "attr"⟩

/-- C7: an empty datetime-set payload issues a driver call setting the
remote time to now (a None value); a parsable payload forwards the parsed
value; an unparsable payload raises out of the handler, and at the
dispatch loop the failure is logged, produces no driver call, and leaves
the shutdown flag, hence the loop, untouched. -/
theorem C7_set_datetime (cfg : TranslatorConfig) (data : Option String) (sd : Bool) :
    (decodeData data = none →
      on_message_set_datetime data =
        .ok (HandlerResult.mk [] [.setDatetime none]))
    ∧ (∀ s dt, decodeData data = some s → parseDateTime s = some dt →
      on_message_set_datetime data =
        .ok (HandlerResult.mk [] [.setDatetime (some dt)]))
    ∧ (∀ s, decodeData data = some s → parseDateTime s = none →
      on_message_set_datetime data = .error .valueError)
    ∧ (∀ topic entry,
        (subscribetopics cfg).find? (fun p => p.1 == topic)
          = some (entry, .setDatetime) →
        ∀ s, decodeData data = some s → parseDateTime s = none →
        loop_step cfg sd topic data = LoopIter.mk true [] [] sd)
    ∧ (∀ topic, (loop_step cfg sd topic data).shutdown = sd) := by
  refine ⟨?_, ?_, ?_, ?_, ?_⟩
  · intro h
    simp [on_message_set_datetime, h]
  · intro s dt h1 h2
    simp [on_message_set_datetime, h1, h2]
  · intro s h1 h2
    simp [on_message_set_datetime, h1, h2]
  · intro topic entry hf s h1 h2
    simp [loop_step, hf, runHandler, on_message_set_datetime, h1, h2]
  · intro topic
    unfold loop_step
    split
    · rfl
    · split <;> rfl

/-- C7 witness: the theorem evaluated on an empty payload, a parsable
date-time, and garbage text. -/
theorem C7_witness :
    on_message_set_datetime (some "") = .ok (HandlerResult.mk [] [.setDatetime none])
    ∧ on_message_set_datetime (some "2018-06-05 12:00") =
        .ok (HandlerResult.mk [] [.setDatetime (some "2018-06-05 12:00")])
    ∧ on_message_set_datetime (some "junk") = .error .valueError
    ∧ loop_step (TranslatorConfig.mk "base" [] [] none) false "base/datetime/set" (some "junk")
        = LoopIter.mk true [] [] false :=
  ⟨(C7_set_datetime (TranslatorConfig.mk "base" [] [] none) (some "") false).1 (by decide),
   (C7_set_datetime (TranslatorConfig.mk "base" [] [] none) (some "2018-06-05 12:00") false).2.1
      "2018-06-05 12:00" "2018-06-05 12:00" (by decide) (by decide),
   (C7_set_datetime (TranslatorConfig.mk "base" [] [] none) (some "junk") false).2.2.1
      "junk" (by decide) (by decide),
   (C7_set_datetime (TranslatorConfig.mk "base" [] [] none) (some "junk") false).2.2.2.1
      "base/datetime/set" ("base" ++ "/datetime/set") (by decide) "junk" (by decide) (by decide)⟩

/-- C8: an operation-mode or switch set payload that does not resolve by
name against its enum logs one warning and issues no driver call; a
payload that resolves issues exactly one driver call, setting the mode
respectively that switch number against the boolean of the member
value. -/
theorem C8_set_mode_and_switch (data : Option String) (sw : SwitchNumber) :
    (OperationMode.parse_name (decodeData data) = none →
      on_message_baseunit "operation_mode" data =
        .ok (HandlerResult.mk [.cannotSetOperationMode (decodeData data)] []))
    ∧ (∀ m, OperationMode.parse_name (decodeData data) = some m →
      on_message_baseunit "operation_mode" data =
        .ok (HandlerResult.mk [] [.setOperationMode m]))
    ∧ (OnOff.parse_name (decodeData data) = none →
      on_message_switch sw data =
        HandlerResult.mk [.cannotSetSwitch sw (decodeData data)] [])
    ∧ (∀ st, OnOff.parse_name (decodeData data) = some st →
      on_message_switch sw data =
        HandlerResult.mk [] [.setSwitchState sw (OnOff.value st != 0)]) := by
  refine ⟨?_, ?_, ?_, ?_⟩
  · intro h
    simp [on_message_baseunit, h]
  · intro m h
    simp [on_message_baseunit, h]
  · intro h
    simp [on_message_switch, h]
  · intro st h
    simp [on_message_switch, h]

/-- C8 witness: the theorem evaluated on an unrecognised name and on
valid names. -/
theorem C8_witness :
    on_message_baseunit "operation_mode" (some "maybe") =
      .ok (HandlerResult.mk [.cannotSetOperationMode (decodeData (some "maybe"))] [])
    ∧ on_message_baseunit "operation_mode" (some "home") =
      .ok (HandlerResult.mk [] [.setOperationMode .Home])
    ∧ on_message_switch .SW3 (some "maybe") =
      HandlerResult.mk [.cannotSetSwitch .SW3 (decodeData (some "maybe"))] []
    ∧ on_message_switch .SW3 (some "on") =
      HandlerResult.mk [] [.setSwitchState .SW3 (OnOff.value .On != 0)] :=
  ⟨(C8_set_mode_and_switch (some "maybe") .SW3).1 (by decide),
   (C8_set_mode_and_switch (some "home") .SW3).2.1 .Home (by decide),
   (C8_set_mode_and_switch (some "maybe") .SW3).2.2.1 (by decide),
   (C8_set_mode_and_switch (some "on") .SW3).2.2.2 .On (by decide)⟩

/-- C9: building the discovery document for a device whose type has no
entry in the lookup logs exactly one warning, publishes nothing, and
returns normally; for a type with an entry, exactly one document is
published, retained, to the config topic under the discovery prefix, the
platform of the entry, and the unique id formed from the project name and
the device id as six hex digits. -/
theorem C9_discovery (cfg : TranslatorConfig) (dev : Device)
    (dc : TranslatorDeviceConfig) :
    (haDeviceEntry dev.type = none →
      publish_ha_device_config cfg dev dc =
        ([.deviceTypeNotRepresentable dev.type], []))
    ∧ (∀ pe, haDeviceEntry dev.type = some pe →
      ∃ payload,
        publish_ha_device_config cfg dev dc =
          ([], [Pub.mk
            (formatOpt (TranslatorConfig.ha_discovery cfg) ++ "/" ++ pe.1 ++ "/"
              ++ (PROJECT_NAME ++ "_" ++ hex6 dev.device_id) ++ "/config")
            payload true])) := by
  constructor
  · intro h
    simp [publish_ha_device_config, h]
  · intro pe h
    refine ⟨jsonDump
      ([("name", jOpt dc.ha_name),
        ("unique_id", .jstr (haUniqueId dev)),
        ("state_topic", jOpt dc.topic),
        ("availability_topic", .jstr (cfg.baseunit ++ "/is_connected")),
        ("payload_available", .jstr "True"),
        ("payload_not_available", .jstr "False")] ++ pe.2), ?_⟩
    simp [publish_ha_device_config, h, haUniqueId]

/-- C9 witness: the theorem evaluated on an unmapped remote controller
and on a mapped door magnet. -/
theorem C9_witness :
    publish_ha_device_config (TranslatorConfig.mk "base" [] [] (some "hass"))
        (Device.mk 5 .RemoteController false)
        (TranslatorDeviceConfig.mk (some "d") (some "n") none) =
      ([.deviceTypeNotRepresentable DeviceType.RemoteController], [])
    ∧ ∃ payload,
        publish_ha_device_config (TranslatorConfig.mk "base" [] [] (some "hass"))
            (Device.mk 5 .DoorMagnet false)
            (TranslatorDeviceConfig.mk (some "d") (some "n") none) =
          ([], [Pub.mk
            (formatOpt (TranslatorConfig.ha_discovery
                (TranslatorConfig.mk "base" [] [] (some "hass")))
              ++ "/" ++ "binary_sensor" ++ "/"
              ++ (PROJECT_NAME ++ "_" ++ hex6 5) ++ "/config")
            payload true]) :=
  ⟨(C9_discovery (TranslatorConfig.mk "base" [] [] (some "hass"))
      (Device.mk 5 .RemoteController false)
      (TranslatorDeviceConfig.mk (some "d") (some "n") none)).1 (by decide),
   (C9_discovery (TranslatorConfig.mk "base" [] [] (some "hass"))
      (Device.mk 5 .DoorMagnet false)
      (TranslatorDeviceConfig.mk (some "d") (some "n") none)).2
        ("binary_sensor",
         [("device_class", .jstr "door"), ("payload_on", .jstr "open"),
          ("payload_off", .jstr "closed")]) (by decide)⟩

/-- C10: when the discovery prefix is configured and no device config
exists for the added device id, the device-added handler attaches the
callbacks, publishes nothing, and raises AttributeError before any
discovery publish; and the handler completes without error exactly when a
device config exists for the id or discovery is disabled. -/
theorem C10_device_added (cfg : TranslatorConfig) (dev : Device)
    (props : List (String × PyVal)) :
    (truthyStr (TranslatorConfig.ha_discovery cfg) = true →
      dictGet cfg.devices dev.device_id = none →
      baseunit_device_added cfg dev props =
        DeviceAddedOutcome.mk true [] [] (some .attributeError))
    ∧ ((baseunit_device_added cfg dev props).error = none ↔
        ((dictGet cfg.devices dev.device_id).isSome = true
          ∨ truthyStr (TranslatorConfig.ha_discovery cfg) = false)) := by
  constructor
  · intro h1 h2
    simp [baseunit_device_added, h1, h2]
  · cases hd : dictGet cfg.devices dev.device_id with
    | none =>
      cases ht : truthyStr (TranslatorConfig.ha_discovery cfg) <;>
        simp [baseunit_device_added, hd, ht]
    | some dc =>
      cases ht : truthyStr (TranslatorConfig.ha_discovery cfg) <;>
        cases htn : truthyStr dc.ha_name <;>
          simp [baseunit_device_added, hd, ht, htn]

/-- C10 witness: the theorem evaluated at a configuration with discovery
enabled and an empty device table. -/
theorem C10_witness :
    baseunit_device_added (TranslatorConfig.mk "base" [] [] (some "hass"))
        (Device.mk 5 .DoorMagnet false) [] =
      DeviceAddedOutcome.mk true [] [] (some .attributeError) :=
  (C10_device_added (TranslatorConfig.mk "base" [] [] (some "hass"))
      (Device.mk 5 .DoorMagnet false) []).1 (by decide) (by decide)

theorem wf_handle_lt {st : TransState} (hwf : WF st = true) :
    ∀ t ∈ st.loop.timers, t.handle < st.loop.nextHandle := by
  intro t htm
  have h := list_all_imp hwf t htm
  simp only [Bool.and_eq_true, decide_eq_true_eq] at h
  exact h.1

theorem wf_handle_stored {st : TransState} (hwf : WF st = true) :
    ∀ t ∈ st.loop.timers, dictGet st.handles t.deviceId = some t.handle := by
  intro t htm
  have h := list_all_imp hwf t htm
  simp only [Bool.and_eq_true, beq_iff_eq] at h
  exact h.2

theorem wf_no_timer_none {st : TransState} {d : Nat} (hwf : WF st = true)
    (h : dictGet st.handles d = none) :
    ∀ t ∈ st.loop.timers, (t.deviceId == d) = false := by
  intro t htm
  cases he : t.deviceId == d
  · rfl
  · have hd : t.deviceId = d := by simpa using he
    have hs := wf_handle_stored hwf t htm
    rw [hd, h] at hs
    exact absurd hs (by simp)

theorem wf_timer_handle_eq {st : TransState} {d h0 : Nat} (hwf : WF st = true)
    (h : dictGet st.handles d = some h0) :
    ∀ t ∈ st.loop.timers, t.deviceId = d → t.handle = h0 := by
  intro t htm hd
  have hs := wf_handle_stored hwf t htm
  rw [hd, h] at hs
  exact (Option.some_inj.mp hs).symm

theorem arm_state_facts (handles : List (Nat × Nat)) (now next d i : Nat)
    (tm3 : List TimerEntry) (pubs : List Pub)
    (hlt : ∀ t ∈ tm3, t.handle < next)
    (hnd : ∀ t ∈ tm3, (t.deviceId == d) = false)
    (hstored : ∀ t ∈ tm3, dictGet handles t.deviceId = some t.handle) :
    livesFor
        (TransState.mk
          (LoopState.mk now (next + 1)
            (tm3 ++ [TimerEntry.mk next d (now + i)]))
          (dictSet handles d next) pubs) d
      = [TimerEntry.mk next d (now + i)]
    ∧ WF (TransState.mk
          (LoopState.mk now (next + 1)
            (tm3 ++ [TimerEntry.mk next d (now + i)]))
          (dictSet handles d next) pubs) = true := by
  constructor
  · rw [livesFor]
    simp only [List.filter_append]
    rw [List.filter_eq_nil_iff.mpr (by intro t htm; simp [hnd t htm])]
    simp [List.filter]
  · rw [WF]
    simp only [List.all_append, Bool.and_eq_true]
    constructor
    · rw [List.all_eq_true]
      intro t htm
      have h1 := hlt t htm
      have h2 := hstored t htm
      have h3 : t.deviceId ≠ d := by
        intro he
        have := hnd t htm
        rw [he] at this
        simp at this
      simp only [Bool.and_eq_true, decide_eq_true_eq, beq_iff_eq]
      exact ⟨Nat.lt_succ_of_lt h1, by rw [dictGet_dictSet_ne _ _ _ _ h3]; exact h2⟩
    · simp [dictGet_dictSet_self]

theorem trigger_arm (cfg : TranslatorConfig) (st : TransState) (d : Nat)
    (dc : TranslatorDeviceConfig)
    (hdc : dictGet cfg.devices d = some dc)
    (ht : truthyStr dc.topic = true)
    (hwf : WF st = true) :
    livesFor (device_on_event cfg st d .Trigger) d =
      [TimerEntry.mk st.loop.nextHandle d (st.loop.now + orDefault dc.auto_reset_interval)]
    ∧ WF (device_on_event cfg st d .Trigger) = true
    ∧ dictGet (device_on_event cfg st d .Trigger).handles d = some st.loop.nextHandle
    ∧ (device_on_event cfg st d .Trigger).loop.nextHandle = st.loop.nextHandle + 1
    ∧ (device_on_event cfg st d .Trigger).loop.now = st.loop.now
    ∧ (device_on_event cfg st d .Trigger).pubs =
        st.pubs ++
          [Pub.mk (dc.topic.getD "" ++ "/event_code") (pyStr (.eventCode .Trigger)) false,
           Pub.mk (dc.topic.getD "") "on" true] := by
  cases hh : dictGet st.handles d with
  | some h0 =>
    have hst' : device_on_event cfg st d .Trigger =
        TransState.mk
          (LoopState.mk st.loop.now (st.loop.nextHandle + 1)
            ((st.loop.timers.filter (fun t => !(t.handle == h0))) ++
              [TimerEntry.mk st.loop.nextHandle d
                (st.loop.now + orDefault dc.auto_reset_interval)]))
          (dictSet st.handles d st.loop.nextHandle)
          (st.pubs ++
            [Pub.mk (dc.topic.getD "" ++ "/event_code") (pyStr (.eventCode .Trigger)) false,
             Pub.mk (dc.topic.getD "") "on" true]) := by
      unfold device_on_event
      rw [hdc]
      simp [ht, pubOne, hh, cancelHandle, callLater, OnOff.parse_value, pyStr]
    have hfacts := arm_state_facts st.handles st.loop.now st.loop.nextHandle d
      (orDefault dc.auto_reset_interval)
      (st.loop.timers.filter (fun t => !(t.handle == h0)))
      (st.pubs ++
        [Pub.mk (dc.topic.getD "" ++ "/event_code") (pyStr (.eventCode .Trigger)) false,
         Pub.mk (dc.topic.getD "") "on" true])
      (by
        intro t htm
        exact wf_handle_lt hwf t (List.mem_filter.mp htm).1)
      (by
        intro t htm
        rcases List.mem_filter.mp htm with ⟨htm', hne⟩
        cases he : t.deviceId == d
        · rfl
        · have hd : t.deviceId = d := by simpa using he
          have := wf_timer_handle_eq hwf hh t htm' hd
          rw [this] at hne
          simp at hne)
      (by
        intro t htm
        exact wf_handle_stored hwf t (List.mem_filter.mp htm).1)
    rw [hst']
    exact ⟨hfacts.1, hfacts.2, dictGet_dictSet_self _ _ _, rfl, rfl, rfl⟩
  | none =>
    have hst' : device_on_event cfg st d .Trigger =
        TransState.mk
          (LoopState.mk st.loop.now (st.loop.nextHandle + 1)
            (st.loop.timers ++
              [TimerEntry.mk st.loop.nextHandle d
                (st.loop.now + orDefault dc.auto_reset_interval)]))
          (dictSet st.handles d st.loop.nextHandle)
          (st.pubs ++
            [Pub.mk (dc.topic.getD "" ++ "/event_code") (pyStr (.eventCode .Trigger)) false,
             Pub.mk (dc.topic.getD "") "on" true]) := by
      unfold device_on_event
      rw [hdc]
      simp [ht, pubOne, hh, callLater, OnOff.parse_value, pyStr]
    have hfacts := arm_state_facts st.handles st.loop.now st.loop.nextHandle d
      (orDefault dc.auto_reset_interval)
      st.loop.timers
      (st.pubs ++
        [Pub.mk (dc.topic.getD "" ++ "/event_code") (pyStr (.eventCode .Trigger)) false,
         Pub.mk (dc.topic.getD "") "on" true])
      (wf_handle_lt hwf)
      (wf_no_timer_none hwf hh)
      (wf_handle_stored hwf)
    rw [hst']
    exact ⟨hfacts.1, hfacts.2, dictGet_dictSet_self _ _ _, rfl, rfl, rfl⟩

theorem wf_setNow (s : TransState) (t : Nat) : WF (setNow s t) = WF s := rfl

/-- C1: from a well-formed state, two Trigger events for the same device
in succession, with time passing but no intervening fire, leave exactly
one scheduled auto-reset timer for that device id, at the deadline set by
the second arm, and preserve the one-live-timer-per-id well-formedness:
the second arm cancels the stored handle before storing the fresh one. -/
theorem C1_two_triggers_one_timer (cfg : TranslatorConfig) (st : TransState)
    (d : Nat) (dc : TranslatorDeviceConfig) (t2 : Nat)
    (hdc : dictGet cfg.devices d = some dc)
    (ht : truthyStr dc.topic = true)
    (hwf : WF st = true) :
    livesFor
        (device_on_event cfg (setNow (device_on_event cfg st d .Trigger) t2) d .Trigger) d
      = [TimerEntry.mk (st.loop.nextHandle + 1) d (t2 + orDefault dc.auto_reset_interval)]
    ∧ WF (device_on_event cfg (setNow (device_on_event cfg st d .Trigger) t2) d .Trigger)
      = true := by
  have h1 := trigger_arm cfg st d dc hdc ht hwf
  have hwf1 : WF (setNow (device_on_event cfg st d .Trigger) t2) = true := by
    rw [wf_setNow]
    exact h1.2.1
  have h2 := trigger_arm cfg (setNow (device_on_event cfg st d .Trigger) t2) d dc hdc ht hwf1
  have hnext : (setNow (device_on_event cfg st d .Trigger) t2).loop.nextHandle
      = st.loop.nextHandle + 1 := h1.2.2.2.1
  have hnow : (setNow (device_on_event cfg st d .Trigger) t2).loop.now = t2 := rfl
  rw [hnext, hnow] at h2
  exact ⟨h2.1, h2.2.1⟩

/-- C1 witness: the theorem evaluated at a one-device configuration from
the empty state, with the second trigger at time five. -/
theorem C1_witness :
    livesFor
        (device_on_event
          (TranslatorConfig.mk "base" [(7, TranslatorDeviceConfig.mk (some "dev7") none none)] [] none)
          (setNow
            (device_on_event
              (TranslatorConfig.mk "base" [(7, TranslatorDeviceConfig.mk (some "dev7") none none)] [] none)
              (TransState.mk (LoopState.mk 0 0 []) [] []) 7 .Trigger) 5) 7 .Trigger) 7
      = [TimerEntry.mk 1 7 35]
    ∧ WF (device_on_event
          (TranslatorConfig.mk "base" [(7, TranslatorDeviceConfig.mk (some "dev7") none none)] [] none)
          (setNow
            (device_on_event
              (TranslatorConfig.mk "base" [(7, TranslatorDeviceConfig.mk (some "dev7") none none)] [] none)
              (TransState.mk (LoopState.mk 0 0 []) [] []) 7 .Trigger) 5) 7 .Trigger)
      = true :=
  C1_two_triggers_one_timer
    (TranslatorConfig.mk "base" [(7, TranslatorDeviceConfig.mk (some "dev7") none none)] [] none)
    (TransState.mk (LoopState.mk 0 0 []) [] []) 7
    (TranslatorDeviceConfig.mk (some "dev7") none none) 5
    (by decide) (by decide) (by decide)

/-- C2: a device event with a configured topic publishes the event code,
not retained, to the event-code sub-topic, followed for a Trigger event
by on, retained, to the device topic; a Trigger event arms one auto-reset
timer at now plus the configured-or-default interval whose fire callback
publishes off, retained, to the same device topic; a non-Trigger event
touches neither the timers nor the handle table. -/
theorem C2_trigger_publishes (cfg : TranslatorConfig) (st : TransState)
    (d : Nat) (dc : TranslatorDeviceConfig) (ec : DeviceEventCode)
    (hdc : dictGet cfg.devices d = some dc)
    (ht : truthyStr dc.topic = true)
    (hwf : WF st = true) :
    (device_on_event cfg st d ec).pubs =
      st.pubs ++
        (Pub.mk (dc.topic.getD "" ++ "/event_code") (pyStr (.eventCode ec)) false ::
          (if ec == .Trigger then [Pub.mk (dc.topic.getD "") "on" true] else []))
    ∧ (ec ≠ .Trigger →
        (device_on_event cfg st d ec).loop = st.loop
        ∧ (device_on_event cfg st d ec).handles = st.handles)
    ∧ (ec = .Trigger →
        livesFor (device_on_event cfg st d ec) d =
          [TimerEntry.mk st.loop.nextHandle d
            (st.loop.now + orDefault dc.auto_reset_interval)]
        ∧ ∃ st2, auto_reset cfg d (device_on_event cfg st d ec) = .ok st2
            ∧ st2.pubs = (device_on_event cfg st d ec).pubs
                ++ [Pub.mk (dc.topic.getD "") "off" true]) := by
  by_cases hec : ec = .Trigger
  · subst hec
    have harm := trigger_arm cfg st d dc hdc ht hwf
    refine ⟨?_, fun h => absurd rfl h, fun _ => ⟨harm.1, ?_⟩⟩
    · rw [harm.2.2.2.2.2]
      rfl
    · have hget := harm.2.2.1
      have hsome : (dictGet (device_on_event cfg st d .Trigger).handles d).isSome = true := by
        rw [hget]
        rfl
      refine ⟨TransState.mk (device_on_event cfg st d .Trigger).loop
        (dictRemove (device_on_event cfg st d .Trigger).handles d)
        ((device_on_event cfg st d .Trigger).pubs
          ++ [Pub.mk (dc.topic.getD "") "off" true]), ?_, rfl⟩
      rw [auto_reset, hdc]
      simp [ht, pubOne, hsome, dictRemove, OnOff.parse_value, pyStr]
  · have hb : (ec == DeviceEventCode.Trigger) = false := by
      cases he : ec == DeviceEventCode.Trigger
      · rfl
      · exact absurd (by simpa using he) hec
    refine ⟨?_, fun _ => ?_, fun h => absurd h hec⟩
    · unfold device_on_event
      rw [hdc]
      simp [ht, pubOne, hb]
    · constructor
      · unfold device_on_event
        rw [hdc]
        simp [ht, pubOne, hb]
      · unfold device_on_event
        rw [hdc]
        simp [ht, pubOne, hb]

/-- C2 witness: the theorem evaluated at a one-device configuration from
the empty state on a Trigger event. -/
theorem C2_witness :
    (device_on_event
        (TranslatorConfig.mk "base" [(7, TranslatorDeviceConfig.mk (some "dev7") none none)] [] none)
        (TransState.mk (LoopState.mk 0 0 []) [] []) 7 .Trigger).pubs =
      [] ++
        (Pub.mk ((some "dev7" : Option String).getD "" ++ "/event_code")
            (pyStr (.eventCode .Trigger)) false ::
          (if DeviceEventCode.Trigger == .Trigger then
            [Pub.mk ((some "dev7" : Option String).getD "") "on" true]
          else [])) :=
  (C2_trigger_publishes
    (TranslatorConfig.mk "base" [(7, TranslatorDeviceConfig.mk (some "dev7") none none)] [] none)
    (TransState.mk (LoopState.mk 0 0 []) [] []) 7
    (TranslatorDeviceConfig.mk (some "dev7") none none) .Trigger
    (by decide) (by decide) (by decide)).1
